import Mathlib

/-!
Verification of the Motorola documentation crawler (src/motorola_crawler.py).

The development shallowly embeds the crawler's pure logic in Lean:

* HTML documents are modelled as a forest of `HNode` trees (element nodes
  with a tag, attributes and children, and text nodes), mirroring the
  BeautifulSoup document model used by the source.  BeautifulSoup
  traversal primitives (`find_all`, `find`, `find_next_sibling` walks,
  `get_text`) are modelled as Lean functions on this forest.  The
  sibling-walk model covers documents in which the walked node's later
  content appears among its following siblings (the shape all theorems
  below quantify over); continuation into an ancestor's siblings is not
  modelled.
* Network fetches (crawl4ai `arun` results) are modelled by a
  `FetchResult` record supplied by the caller: per-attempt results are
  given as a function from the attempt index, so retry behaviour can be
  analysed for arbitrary fetch oracles.
* Python string operations are re-implemented over `List Char` so that
  every definition evaluates inside the kernel: `pyStrip` is `str.strip`,
  `lowerStr` is `str.lower`, `strContains s pat` is Python `pat in s`,
  `pySlice s n` is `s[0:n]`, `pyLen` is `len`, `pyJoin` is `sep.join`,
  `normalizeWS` is `" ".join(s.split())`.
* Python exceptions that the source can actually raise are modelled by
  `PyError`; reading a local variable before assignment surfaces as
  `PyError.nameError` (Python `UnboundLocalError`).
* The wall-clock field `crawled_at` (datetime.now) and the sleep calls
  are not modelled; neither carries information the claims depend on.
-/

set_option autoImplicit false
set_option linter.unusedVariables false

namespace Crawler

/-! ### Python-style string primitives (kernel-computable) -/

/-- Is `pat` a prefix of `cs`, character by character. -/
def prefixAt : List Char → List Char → Bool
  | [], _ => true
  | _ :: _, [] => false
  | p :: ps, c :: cs => p = c && prefixAt ps cs

/-- Does `pat` occur as a contiguous run anywhere in the list. -/
def hasInfixAux (pat : List Char) : List Char → Bool
  | [] => prefixAt pat []
  | c :: cs => prefixAt pat (c :: cs) || hasInfixAux pat cs

/-- Python `pat in s` for strings. -/
def strContains (s pat : String) : Bool := hasInfixAux pat.data s.data

/-- Python `str.strip()` on a character list. -/
def trimChars (cs : List Char) : List Char :=
  ((cs.dropWhile Char.isWhitespace).reverse.dropWhile Char.isWhitespace).reverse

/-- Python `str.strip()`. -/
def pyStrip (s : String) : String := ⟨trimChars s.data⟩

/-- Python `str.lower()` (ASCII case fold, all that the crawler needs). -/
def lowerStr (s : String) : String := ⟨s.data.map Char.toLower⟩

/-- Python `s[0:n]` (slicing counts characters, as Lean `List.take` does). -/
def pySlice (s : String) (n : Nat) : String := ⟨s.data.take n⟩

/-- Python `len(s)` (character count). -/
def pyLen (s : String) : Nat := s.data.length

/-- Python `sep.join(parts)`. -/
def pyJoin (sep : String) : List String → String
  | [] => ""
  | [s] => s
  | s :: rest => s ++ sep ++ pyJoin sep rest

/-- Python `s.split(c)` on a character list (single-character separator). -/
def splitOnChar (c : Char) : List Char → List (List Char)
  | [] => [[]]
  | x :: xs =>
    let rest := splitOnChar c xs
    if x = c then [] :: rest
    else match rest with
      | [] => [[x]]
      | h :: t => (x :: h) :: t

/-- Python `s.split()` (whitespace runs as separators, no empty pieces). -/
def wsFields (cur : List Char) : List Char → List (List Char)
  | [] => if cur.isEmpty then [] else [cur.reverse]
  | c :: cs =>
    if c.isWhitespace then
      if cur.isEmpty then wsFields [] cs else cur.reverse :: wsFields [] cs
    else wsFields (c :: cur) cs

/-- Final whitespace cleanup of the crawler: `" ".join(content.split())`. -/
def normalizeWS (s : String) : String :=
  pyJoin " " ((wsFields [] s.data).map (fun l => (⟨l⟩ : String)))

/-- The chars of `cs` strictly before the first occurrence of `pat`. -/
def beforeFirst (pat : List Char) : List Char → List Char
  | [] => []
  | c :: cs => if prefixAt pat (c :: cs) then [] else c :: beforeFirst pat cs

/-- Truthiness of an optional Python string (`None` and `""` are falsy). -/
def pyTruthyStr : Option String → Bool
  | none => false
  | some s => s ≠ ""

/-- Truthiness of the optional `max_pages` int (`None` and `0` are falsy). -/
def pyTruthyNat : Option Nat → Bool
  | none => false
  | some m => m ≠ 0

/-! ### The HTML document model -/

/-- A parsed HTML node: an element with tag, attributes and children, or a
text node (BeautifulSoup `Tag` / `NavigableString`). -/
inductive HNode where
  | elem (tag : String) (attrs : List (String × String)) (children : List HNode)
  | text (s : String)

/-- First value bound to attribute `k`. -/
def lookupAttr : List (String × String) → String → Option String
  | [], _ => none
  | (a, v) :: rest, k => if a = k then some v else lookupAttr rest k

/-- Is the node an element (a Tag, as opposed to a NavigableString). -/
def isElem : HNode → Bool
  | .elem _ _ _ => true
  | .text _ => false

/-- The tag name; `none` for text nodes (NavigableString has no name). -/
def tagOf : HNode → Option String
  | .elem t _ _ => some t
  | .text _ => none

/-- All nodes of a forest in document (preorder) order; this is the order
BeautifulSoup `find_all` reports matches in. -/
def forestDesc : List HNode → List HNode
  | [] => []
  | .text s :: r => HNode.text s :: forestDesc r
  | .elem t a cs :: r => HNode.elem t a cs :: (forestDesc cs ++ forestDesc r)

/-- All descendants of one node in document order (excluding the node). -/
def descendantsOf : HNode → List HNode
  | .text _ => []
  | .elem _ _ cs => forestDesc cs

/-- All text-node strings of a forest in document order. -/
def forestStrings : List HNode → List String
  | [] => []
  | .text s :: r => s :: forestStrings r
  | .elem _ _ cs :: r => forestStrings cs ++ forestStrings r

/-- The strings below one node (`self._all_strings`). -/
def nodeStrings : HNode → List String
  | .text s => [s]
  | .elem _ _ cs => forestStrings cs

/-- BeautifulSoup `get_text()`: concatenation of all strings. -/
def getTextRaw (n : HNode) : String := pyJoin "" (nodeStrings n)

/-- Strip each string and drop the ones that become empty (what
`get_text(strip=True)` does before joining). -/
def strippedStrings (l : List String) : List String :=
  (l.map pyStrip).filter (fun t => t ≠ "")

/-- BeautifulSoup `get_text(strip=True)`. -/
def getTextStrip (n : HNode) : String := pyJoin "" (strippedStrings (nodeStrings n))

/-- BeautifulSoup `get_text(separator=" ", strip=True)` on one node. -/
def getTextSepStrip (n : HNode) : String := pyJoin " " (strippedStrings (nodeStrings n))

/-- `get_text(separator=" ", strip=True)` over the whole document. -/
def forestTextSepStrip (l : List HNode) : String :=
  pyJoin " " (strippedStrings (forestStrings l))

mutual

/-- Structural equality of nodes; BeautifulSoup `Tag.__eq__` compares name,
attributes and contents recursively, which Python `==`/`!=` on tags use. -/
def nodeBEq : HNode → HNode → Bool
  | .text s, .text t => s = t
  | .elem t1 a1 c1, .elem t2 a2 c2 => t1 = t2 && a1 = a2 && forestBEq c1 c2
  | _, _ => false

/-- Structural equality of node lists, pointwise. -/
def forestBEq : List HNode → List HNode → Bool
  | [], [] => true
  | n :: r, m :: s => nodeBEq n m && forestBEq r s
  | _, _ => false

end

/-- BeautifulSoup `find` for an element predicate, returning the first
matching element in document order TOGETHER with its following siblings
(the nodes a subsequent `find_next_sibling` walk will visit). -/
def findElemWithFollowing (p : HNode → Bool) : List HNode → Option (HNode × List HNode)
  | [] => none
  | .text _ :: rest => findElemWithFollowing p rest
  | .elem t a cs :: rest =>
    if p (.elem t a cs) then some (.elem t a cs, rest)
    else match findElemWithFollowing p cs with
      | some r => some r
      | none => findElemWithFollowing p rest

/-! ### Crawler data model -/

/-- One fetch attempt's outcome, mirroring the crawl4ai result object the
source reads: `success`, `html` (here already parsed), markdown content,
`error_message`, and the page metadata title. -/
structure FetchResult where
  success : Bool
  html : List HNode
  markdown : String
  error_message : String
  metadata_title : Option String

/-- A navigation link as built by `extract_navigation_links`
(dict with keys `url` and `nav_text`). -/
structure NavLink where
  url : String
  nav_text : String
deriving DecidableEq

/-- The normalized document record built at the end of `crawl_single_page`
(lines 255-264).  The wall-clock `crawled_at` field is not modelled. -/
structure Document where
  title : String
  url : String
  nav_text : Option String
  content_snippet : String
  full_content : String
  content_length : Nat
  source_type : String
deriving DecidableEq

/-- Outcome of `crawl_single_page`: either the error dict
`{"error": True, "url": ..., "error_message": ...}` or a `Document`. -/
inductive CrawlOutcome where
  | failure (url : String) (error_message : String)
  | document (doc : Document)
deriving DecidableEq

/-- A Python exception escaping the modelled code.  The only one the
source can raise on the modelled paths is reading the local variable
`seen_urls` before assignment (UnboundLocalError). -/
inductive PyError where
  | nameError (name : String)
deriving DecidableEq

/-! ### extract_navigation_links (lines 27-137) -/

/-- First match of `re.search(r"/bundle/(\d+)/", url)` starting at the
current position: `/bundle/`, one or more digits, then `/`. -/
def bundleIdAt (cs : List Char) : Option String :=
  if prefixAt ("/bundle/".data) cs then
    let after := cs.drop 8
    let ds := after.takeWhile Char.isDigit
    if !ds.isEmpty && (after.drop ds.length).take 1 = ['/'] then some ⟨ds⟩ else none
  else none

/-- `re.search` scans left to right for the first matching position. -/
def searchBundleId : List Char → Option String
  | [] => none
  | c :: rest =>
    match bundleIdAt (c :: rest) with
    | some s => some s
    | none => searchBundleId rest

/-- Extract the bundle id from the TOC URL (line 58). -/
def parseBundleId (url : String) : Option String := searchBundleId url.data

/-- The apostrophe character (kept out of string literals). -/
def apos : Char := Char.ofNat 39

/-- The section phrase `what's new` (line 72, first alternative). -/
def whatsNewPhrase : String := "what" ++ String.singleton apos ++ "s new"

/-- Heading tag names searched on line 71. -/
def isHeadingTag (t : String) : Bool := t = "h1" || t = "h2" || t = "h3" || t = "h4"

/-- Lines 71-72: a heading (h1-h4) whose `get_text().lower()` mentions the
Whats New phrase (with or without the apostrophe). -/
def isWhatsNewHeading : HNode → Bool
  | .text _ => false
  | .elem t a cs =>
    isHeadingTag t &&
      (strContains (lowerStr (getTextRaw (.elem t a cs))) whatsNewPhrase ||
       strContains (lowerStr (getTextRaw (.elem t a cs))) "whats new")

/-- Line 95: keep only in-bundle page links, skipping auth/login. -/
def isBundlePageLink (bundle_id url : String) : Bool :=
  strContains url ("/bundle/" ++ bundle_id ++ "/page/") && !strContains url "/auth/login"

/-- Lines 97-98: absolutize a relative URL against the site origin. -/
def toAbsolute (url : String) : String :=
  if prefixAt ("http".data) url.data then url
  else "https://docs.motorolasolutions.com" ++ url

/-- An `<a>` element carrying an `href` attribute (`find_all("a", href=True)`). -/
def isAnchorWithHref : HNode → Bool
  | .elem t a _ => t = "a" && (lookupAttr a "href").isSome
  | .text _ => false

/-- `link.get("href", "")`. -/
def hrefOf : HNode → String
  | .elem _ a _ => (lookupAttr a "href").getD ""
  | .text _ => ""

/-- `current.find_all("a", href=True)`: anchor descendants in document order. -/
def anchorsOf (n : HNode) : List HNode := (descendantsOf n).filter isAnchorWithHref

/-- The inner for-loop over one element's links (lines 90-105): filter to
in-bundle pages, absolutize, and append unseen links with nonempty text,
recording their URL in the dedup set. -/
def addLinks (bundle_id : String) :
    List HNode → List String → List NavLink → List String × List NavLink
  | [], seen, acc => (seen, acc)
  | a :: rest, seen, acc =>
    let url0 := hrefOf a
    let text := getTextStrip a
    if isBundlePageLink bundle_id url0 then
      let url := toAbsolute url0
      if url ∉ seen ∧ text ≠ "" then
        addLinks bundle_id rest (url :: seen) (acc ++ [⟨url, text⟩])
      else addLinks bundle_id rest seen acc
    else addLinks bundle_id rest seen acc

/-- The sibling walk of lines 82-107: visit element siblings in order
(`find_next_sibling` skips strings), stop at the first h1-h3 element that
is not the Whats New heading itself, and collect each visited element's
links via `addLinks`. -/
def walkRegion (bundle_id : String) (whats_new : HNode) :
    List HNode → List String → List NavLink → List String × List NavLink
  | [], seen, acc => (seen, acc)
  | .text _ :: rest, seen, acc => walkRegion bundle_id whats_new rest seen acc
  | .elem t a cs :: rest, seen, acc =>
    if (t = "h1" || t = "h2" || t = "h3") && !nodeBEq (.elem t a cs) whats_new then
      (seen, acc)
    else
      let st := addLinks bundle_id (anchorsOf (.elem t a cs)) seen acc
      walkRegion bundle_id whats_new rest st.1 st.2

/-- Line 80, `whats_new_section.find_next()`: document order continues into
the heading's own children first; if the heading has no element children
the walk proceeds through its following siblings. -/
def regionOf : HNode → List HNode → List HNode
  | .elem _ _ cs, following => if cs.any isElem then cs else following
  | .text _, following => following

/-- `soup.find_all("li")` in document order. -/
def findAllLis (soup : List HNode) : List HNode :=
  (forestDesc soup).filter (fun n => tagOf n = some "li")

/-- The fallback loop over list items (lines 112-127).  The dedup set
`seen_urls` is only assigned on line 79, inside the branch taken when a
Whats New heading was found; when the loop reaches line 122 with the
variable still unbound, Python raises UnboundLocalError.  The optional
`seenOpt` argument models that binding state. -/
def fallbackScan (bundle_id : String) :
    List HNode → Option (List String) → List NavLink →
      Except PyError (Option (List String) × List NavLink)
  | [], seenOpt, acc => .ok (seenOpt, acc)
  | li :: rest, seenOpt, acc =>
    match (anchorsOf li).head? with
    | none => fallbackScan bundle_id rest seenOpt acc
    | some a =>
      let url0 := hrefOf a
      let text := getTextStrip a
      if isBundlePageLink bundle_id url0 then
        let url := toAbsolute url0
        match seenOpt with
        | none => .error (.nameError "seen_urls")
        | some seen =>
          if url ∉ seen ∧ text ≠ "" then
            fallbackScan bundle_id rest (some (url :: seen)) (acc ++ [⟨url, text⟩])
          else fallbackScan bundle_id rest (some seen) acc
      else fallbackScan bundle_id rest seenOpt acc

/-- Lines 77-128 given the result of the heading search of lines 70-75:
when a Whats New heading was found, walk its region (lines 79-107) with the
dedup set initialized, falling back to the list-item scan only when the
region yielded nothing; when no heading was found, run the fallback scan
with the dedup set never having been assigned. -/
def extractWithHeading (bundle_id : String) (soup : List HNode) :
    Option (HNode × List HNode) → Except PyError (List NavLink)
  | some (heading, following) =>
    let st := walkRegion bundle_id heading (regionOf heading following) [] []
    if st.2.isEmpty then
      match fallbackScan bundle_id (findAllLis soup) (some st.1) st.2 with
      | .ok r => .ok r.2
      | .error e => .error e
    else .ok st.2
  | none =>
    match fallbackScan bundle_id (findAllLis soup) none [] with
    | .ok r => .ok r.2
    | .error e => .error e

/-- `extract_navigation_links` (lines 27-137), with the TOC fetch outcome
supplied as `result`.  Returns the navigation link list, or the Python
exception the source raises. -/
def extract_navigation_links (toc_url : String) (result : FetchResult) :
    Except PyError (List NavLink) :=
  if !result.success then .ok []
  else
    match parseBundleId toc_url with
    | none => .ok []
    | some bundle_id =>
      extractWithHeading bundle_id result.html
        (findElemWithFollowing isWhatsNewHeading result.html)

/-! ### crawl_single_page (lines 140-264) -/

/-- Line 176: the security-block content signatures. -/
def isSecurityBlocked (content : String) : Bool :=
  strContains content "Request unsuccessful" || strContains content "Incapsula incident ID"

/-- Line 177: the recorded reason for a security block. -/
def securityBlockMsg : String := "Security block (WAF/CDN)"

/-- How the retry loop of lines 166-193 ended: the early security-block
error return of lines 182-186, or the loop finishing with the last fetch
result and last recorded error (line 196 then inspects both). -/
inductive LoopExit where
  | securityReturn (msg : String)
  | finished (result : Option FetchResult) (last_error : Option String)

/-- The retry loop (`for attempt in range(max_retries + 1)`), returning the
number of fetch attempts made together with the exit.  `fuel` is the number
of loop iterations left (`max_retries + 1` at entry); `attempt`,
`last_error` and the last fetch `result` mirror the Python locals. -/
def runAttempts (fetch : Nat → FetchResult) (max_retries : Nat) :
    Nat → Nat → Option String → Option FetchResult → Nat × LoopExit
  | 0, _, last_error, last_result => (0, .finished last_result last_error)
  | fuel + 1, attempt, last_error, last_result =>
    let r := fetch attempt
    if r.success then
      if isSecurityBlocked r.markdown then
        if attempt < max_retries then
          let next := runAttempts fetch max_retries fuel (attempt + 1)
            (some securityBlockMsg) (some r)
          (next.1 + 1, next.2)
        else (1, .securityReturn securityBlockMsg)
      else (1, .finished (some r) last_error)
    else
      let next := runAttempts fetch max_retries fuel (attempt + 1)
        (some r.error_message) (some r)
      (next.1 + 1, next.2)

/-- Lines 207-208: decompose script/style/nav/header/footer elements. -/
def isNoiseTag (t : String) : Bool :=
  t = "script" || t = "style" || t = "nav" || t = "header" || t = "footer"

/-- Remove all noise elements, recursively. -/
def stripNoise : List HNode → List HNode
  | [] => []
  | .text s :: r => HNode.text s :: stripNoise r
  | .elem t a cs :: r =>
    if isNoiseTag t then stripNoise r
    else HNode.elem t a (stripNoise cs) :: stripNoise r

/-- Line 211's text predicate: mentions cookie or privacy statement. -/
def isCookieString (s : String) : Bool :=
  s ≠ "" && (strContains (lowerStr s) "cookie" || strContains (lowerStr s) "privacy statement")

/-- Lines 211-213 remove the parent of any matching text node longer than
100 characters: does this child list contain such a text node. -/
def hasLongCookieText : List HNode → Bool
  | [] => false
  | .text s :: r => (isCookieString s && pyLen s > 100) || hasLongCookieText r
  | .elem _ _ _ :: r => hasLongCookieText r

/-- Apply the cookie-banner removal over the whole tree. -/
def removeCookieBlocks : List HNode → List HNode
  | [] => []
  | .text s :: r => HNode.text s :: removeCookieBlocks r
  | .elem t a cs :: r =>
    if hasLongCookieText cs then removeCookieBlocks r
    else HNode.elem t a (removeCookieBlocks cs) :: removeCookieBlocks r

/-- Lines 219-221: metadata title, cut at the em-dash separator. -/
def titleFromMetadata (r : FetchResult) : String :=
  let t := r.metadata_title.getD "Unknown"
  if strContains t " — " then ⟨beforeFirst (" — ".data) t.data⟩ else t

/-- `soup.find(id=anchor)` matches elements whose id attribute is `anchor`. -/
def hasIdAttr (anchor : String) : HNode → Bool
  | .elem _ a _ => lookupAttr a "id" == some anchor
  | .text _ => false

/-- The sibling walk of lines 232-237: visit element siblings, stop at the
first h1-h4 heading, and append each visited element's stripped text when
nonempty to the accumulated `content_parts`. -/
def sectionWalk : List HNode → List String → List String
  | [], parts => parts
  | .text _ :: rest, parts => sectionWalk rest parts
  | .elem t a cs :: rest, parts =>
    if isHeadingTag t then parts
    else
      let tx := getTextStrip (.elem t a cs)
      sectionWalk rest (if tx ≠ "" then parts ++ [tx] else parts)

/-- Lines 226-239: anchor-scoped content selection.  Find the element whose
id is the URL fragment; if present, join its own stripped text with the
walked siblings' texts with single spaces. -/
def selectAnchorContent (soup : List HNode) (anchor : String) : Option String :=
  match findElemWithFollowing (hasIdAttr anchor) soup with
  | some (sec, following) => some (pyJoin " " (sectionWalk following [getTextStrip sec]))
  | none => none

/-- A `<main>` or `<article>` element (line 244, first find). -/
def isMainTag : HNode → Bool
  | .elem t _ _ => t = "main" || t = "article"
  | .text _ => false

/-- Line 244, second find: class attribute containing `content`. -/
def hasContentClass : HNode → Bool
  | .elem _ a _ =>
    match lookupAttr a "class" with
    | some c => strContains (lowerStr c) "content"
    | none => false
  | .text _ => false

/-- Python truthiness of a BeautifulSoup node: `Tag.__len__` is the number
of children, so an empty element is falsy; a NavigableString is falsy when
empty. -/
def pyTruthyNode : HNode → Bool
  | .elem _ _ cs => !cs.isEmpty
  | .text s => s ≠ ""

/-- First element of the document satisfying `p` (`soup.find(...)`). -/
def findFirst (p : HNode → Bool) (soup : List HNode) : Option HNode :=
  ((forestDesc soup).filter p).head?

/-- Python `a or b` for optional tags (a falsy Tag also selects `b`). -/
def pyOrNode (a b : Option HNode) : Option HNode :=
  match a with
  | some n => if pyTruthyNode n then some n else b
  | none => b

/-- Lines 242-250: when the anchor-scoped content is falsy, fall back to
the main/article element, else the first content-classed element, else the
whole cleaned document text. -/
def chooseContent (soup : List HNode) (section_content : Option String) : String :=
  if !pyTruthyStr section_content then
    let main_content := pyOrNode (findFirst isMainTag soup) (findFirst hasContentClass soup)
    match main_content with
    | some n => if pyTruthyNode n then getTextSepStrip n else forestTextSepStrip soup
    | none => forestTextSepStrip soup
  else section_content.getD ""

/-- Lines 255-264: assemble the Document record from the final cleaned
content string. -/
def mkDocument (title url : String) (nav_text : Option String) (content : String) :
    Document :=
  { title := title
    url := url
    nav_text := nav_text
    content_snippet := pySlice content 1500
    full_content := content
    content_length := pyLen content
    source_type := "motorola_docs" }

/-- Lines 203-264: the successful-fetch tail of `crawl_single_page` —
noise stripping, title choice, anchor-scoped or main-content selection,
whitespace normalization, and Document assembly. -/
def buildDocument (r : FetchResult) (url : String) (nav_text : Option String) : Document :=
  let soup := removeCookieBlocks (stripNoise r.html)
  let title := if pyTruthyStr nav_text then nav_text.getD "" else titleFromMetadata r
  let section_content : Option String :=
    if strContains url "#" then
      selectAnchorContent soup ⟨(splitOnChar '#' url.data).getD 1 []⟩
    else none
  let content := normalizeWS (chooseContent soup section_content)
  mkDocument title url nav_text content

/-- `crawl_single_page` (lines 140-264) with its fetch attempts supplied by
the oracle `fetch`; the first component counts the fetch attempts made,
the second is the Python function's return value. -/
def crawl_single_trace (fetch : Nat → FetchResult) (url : String)
    (nav_text : Option String) (max_retries : Nat) : Nat × CrawlOutcome :=
  match runAttempts fetch max_retries (max_retries + 1) 0 none none with
  | (n, .securityReturn msg) => (n, .failure url msg)
  | (n, .finished r last_error) =>
    match r with
    | some rr =>
      if rr.success then (n, .document (buildDocument rr url nav_text))
      else (n, .failure url (last_error.getD "Unknown error"))
    | none => (n, .failure url (last_error.getD "Unknown error"))

/-- The dict `crawl_single_page` returns. -/
def crawl_single_page (fetch : Nat → FetchResult) (url : String)
    (nav_text : Option String) (max_retries : Nat) : CrawlOutcome :=
  (crawl_single_trace fetch url nav_text max_retries).2

/-- How many fetch attempts a `crawl_single_page` call makes. -/
def crawl_single_attempts (fetch : Nat → FetchResult) (url : String)
    (nav_text : Option String) (max_retries : Nat) : Nat :=
  (crawl_single_trace fetch url nav_text max_retries).1

/-! ### crawl_documentation_bundle (lines 267-317) -/

/-- The Document of a successful outcome, if any. -/
def docOf : CrawlOutcome → Option Document
  | .document d => some d
  | .failure _ _ => none

/-- The per-link loop of lines 301-314: crawl each planned link (with the
default `max_retries = 2`), recording every outcome in order, and appending
only the successful Documents to the `documents` list the source returns. -/
def bundleLoop (pageFetch : String → Nat → FetchResult) :
    List NavLink → List CrawlOutcome × List Document
  | [] => ([], [])
  | l :: rest =>
    let outcome := crawl_single_page (pageFetch l.url) l.url (some l.nav_text) 2
    let next := bundleLoop pageFetch rest
    (outcome :: next.1, (docOf outcome).toList ++ next.2)

/-- One orchestrated session: the links a crawl was attempted for, every
per-page outcome in discovery order, and the list the Python function
actually returns (`documents`). -/
structure BundleTrace where
  attempted : List NavLink
  results : List CrawlOutcome
  returned : List Document
deriving DecidableEq

/-- Lines 288-317, given the outcome of the link extraction (an exception
propagates; an empty discovery returns early with no crawls; otherwise the
optional `max_pages` truncation of line 294 is applied and every planned
link is crawled in order). -/
def processNav (pageFetch : String → Nat → FetchResult) (max_pages : Option Nat) :
    Except PyError (List NavLink) → Except PyError BundleTrace
  | .error e => .error e
  | .ok nav_links =>
    if nav_links.isEmpty then .ok ⟨[], [], []⟩
    else
      let planned :=
        if pyTruthyNat max_pages then nav_links.take (max_pages.getD 0) else nav_links
      let lp := bundleLoop pageFetch planned
      .ok ⟨planned, lp.1, lp.2⟩

/-- `crawl_documentation_bundle` (lines 267-317).  The TOC fetch outcome is
`tocFetch`; `pageFetch url` is the per-attempt fetch oracle for one page
URL.  Besides the returned `documents` list the trace records the attempted
links and all per-page outcomes, which the source only prints. -/
def crawl_documentation_bundle (toc_url : String) (tocFetch : FetchResult)
    (pageFetch : String → Nat → FetchResult) (max_pages : Option Nat) :
    Except PyError BundleTrace :=
  processNav pageFetch max_pages (extract_navigation_links toc_url tocFetch)

/-! ### Definitions taken from the specification text (for comparison) -/

/-- Modelled from the spec, section 3: the identity key of a NavigationLink
is its normalized URL, trailing-slash-insensitive (a URL with and without a
final slash has the same key). -/
def specIdentityKey (url : String) : String :=
  if url.data.getLast? = some '/' then ⟨url.data.dropLast⟩ else url

/-- The stream of qualifying links carried by a list of anchors, in
document order, before deduplication: in-bundle anchors with their
absolutized URL and stripped anchor text. -/
def qualStream (bundle_id : String) (as : List HNode) : List NavLink :=
  as.filterMap (fun a =>
    if isBundlePageLink bundle_id (hrefOf a) then
      some ⟨toAbsolute (hrefOf a), getTextStrip a⟩
    else none)

/-- The qualifying links contributed by one visited region element. -/
def qualLinksOfElem (bundle_id : String) (n : HNode) : List NavLink :=
  qualStream bundle_id (anchorsOf n)

/-- The full qualifying-link stream of the scanned region: walk the element
siblings up to the section boundary and concatenate each element's
qualifying links, in document order. -/
def regionScan (bundle_id : String) (whats_new : HNode) : List HNode → List NavLink
  | [] => []
  | .text _ :: rest => regionScan bundle_id whats_new rest
  | .elem t a cs :: rest =>
    if (t = "h1" || t = "h2" || t = "h3") && !nodeBEq (.elem t a cs) whats_new then []
    else qualLinksOfElem bundle_id (.elem t a cs) ++ regionScan bundle_id whats_new rest

/-- First-occurrence deduplication by URL, keeping the first-seen link text
and first-seen order, given an initial set of already-seen URLs. -/
def dedupFirstBy (seen : List String) : List NavLink → List NavLink
  | [] => []
  | l :: rest =>
    if l.url ∈ seen then dedupFirstBy seen rest
    else l :: dedupFirstBy (l.url :: seen) rest

/-! ### Concrete fixtures used by witnesses and counterexamples -/

/-- A fetch oracle that always succeeds with clean content. -/
def c1Fetch : Nat → FetchResult := fun _ =>
  { success := true
    html := [.elem "main" [] [.text "hello world"]]
    markdown := "fine"
    error_message := ""
    metadata_title := none }

/-- A fetch oracle that always comes back with the WAF interstitial in the
page body (a security block on every attempt). -/
def c2Fetch : Nat → FetchResult := fun _ =>
  { success := true
    html := []
    markdown := "Request unsuccessful. Incapsula incident ID: 22"
    error_message := ""
    metadata_title := none }

/-- A TOC fetch with a Whats New heading and one in-bundle link. -/
def c3Toc : FetchResult :=
  { success := true
    html := [.elem "h3" [] [.text "Whats New"],
             .elem "ul" [] [.elem "li" []
               [.elem "a" [("href", "http://m/bundle/1/page/7.html")] [.text "A"]]]]
    markdown := ""
    error_message := ""
    metadata_title := none }

/-- A per-page fetch oracle that always fails with a network error. -/
def pageNetFail : String → Nat → FetchResult := fun _ _ =>
  { success := false
    html := []
    markdown := ""
    error_message := "net down"
    metadata_title := none }

/-- A TOC document with no Whats New heading but one qualifying list-item
link: the input on which the fallback scan reads `seen_urls` unbound. -/
def c4Toc : FetchResult :=
  { success := true
    html := [.elem "ul" [] [.elem "li" []
               [.elem "a" [("href", "/bundle/1/page/9.html")] [.text "Page One"]]]]
    markdown := ""
    error_message := ""
    metadata_title := none }

/-- A successful TOC fetch whose document has no links at all. -/
def emptyOkFetch : FetchResult :=
  { success := true
    html := []
    markdown := ""
    error_message := ""
    metadata_title := none }

/-- A failed TOC fetch. -/
def failFetch : FetchResult :=
  { success := false
    html := []
    markdown := ""
    error_message := "network down"
    metadata_title := none }

/-- A TOC whose Whats New region repeats one URL with different anchor
texts and also contains the same page URL with and without a trailing
slash; a later section holds a link that must not be collected. -/
def c7Toc : FetchResult :=
  { success := true
    html := [.elem "h3" [] [.text "Whats New"],
             .elem "div" []
               [.elem "a" [("href", "http://m/bundle/1/page/7.html")] [.text "A"],
                .elem "a" [("href", "http://m/bundle/1/page/7.html/")] [.text "B"],
                .elem "a" [("href", "http://m/bundle/1/page/7.html")] [.text "C"]],
             .elem "h2" [] [.text "Stop"],
             .elem "div" []
               [.elem "a" [("href", "http://m/bundle/1/page/8.html")] [.text "D"]]]
    markdown := ""
    error_message := ""
    metadata_title := none }

/-- A TOC whose Whats New region discovers four links. -/
def c9Toc : FetchResult :=
  { success := true
    html := [.elem "h3" [] [.text "Whats New"],
             .elem "div" []
               [.elem "a" [("href", "http://m/bundle/1/page/3.html")] [.text "A"],
                .elem "a" [("href", "http://m/bundle/1/page/4.html")] [.text "B"],
                .elem "a" [("href", "http://m/bundle/1/page/5.html")] [.text "C"],
                .elem "a" [("href", "http://m/bundle/1/page/6.html")] [.text "D"]]]
    markdown := ""
    error_message := ""
    metadata_title := none }

/-! ### Helper lemmas -/

/-- On a successful TOC fetch with a parsable bundle id, the extraction is
the heading search followed by `extractWithHeading`. -/
theorem extract_eq (toc_url : String) (result : FetchResult) (bundle_id : String)
    (hp : parseBundleId toc_url = some bundle_id) (hs : result.success = true) :
    extract_navigation_links toc_url result =
      extractWithHeading bundle_id result.html
        (findElemWithFollowing isWhatsNewHeading result.html) := by
  unfold extract_navigation_links
  rw [hp, hs]
  rfl

/-- The Whats New heading used by the concrete fixtures matches the
target-phrase predicate. -/
theorem whatsNewH3_eval : isWhatsNewHeading (.elem "h3" [] [.text "Whats New"]) = true := by
  have hg : getTextRaw (.elem "h3" [] [.text "Whats New"]) = "Whats New" := by
    simp [getTextRaw, nodeStrings, forestStrings, pyJoin]
  simp only [isWhatsNewHeading, hg]
  decide

/-- With no Whats New heading found and the fallback scan raising, the
extraction propagates the exception (the dedup set was never assigned). -/
theorem extractWithHeading_none_error (bundle_id : String) (soup : List HNode) (e : PyError)
    (h : fallbackScan bundle_id (findAllLis soup) none [] = .error e) :
    extractWithHeading bundle_id soup none = .error e := by
  unfold extractWithHeading
  rw [h]

/-- Every Document built by `mkDocument` satisfies the snippet, length and
prefix relations between its fields. -/
theorem mkDocument_inv (t u : String) (nv : Option String) (c : String) :
    (mkDocument t u nv c).content_snippet = pySlice (mkDocument t u nv c).full_content 1500 ∧
    (mkDocument t u nv c).content_length = pyLen (mkDocument t u nv c).full_content ∧
    (pyLen (mkDocument t u nv c).full_content < 1500 →
      (mkDocument t u nv c).content_snippet = (mkDocument t u nv c).full_content) := by
  refine ⟨rfl, rfl, fun h => ?_⟩
  have h' : c.data.length < 1500 := h
  show pySlice c 1500 = c
  unfold pySlice
  rw [List.take_of_length_le (Nat.le_of_lt h')]

/-- The crawl tail always assembles its Document through `mkDocument`. -/
theorem buildDocument_core (r : FetchResult) (url : String) (nv : Option String) :
    ∃ t c, buildDocument r url nv = mkDocument t url nv c := by
  unfold buildDocument
  exact ⟨_, _, rfl⟩

/-- A Document returned by `crawl_single_page` comes from `buildDocument`. -/
theorem crawl_single_page_document (fetch : Nat → FetchResult) (url : String)
    (nav_text : Option String) (max_retries : Nat) (d : Document)
    (h : crawl_single_page fetch url nav_text max_retries = .document d) :
    ∃ rr : FetchResult, d = buildDocument rr url nav_text := by
  unfold crawl_single_page crawl_single_trace at h
  rcases hr : runAttempts fetch max_retries (max_retries + 1) 0 none none with ⟨n, ex⟩
  rw [hr] at h
  cases ex with
  | securityReturn msg => simp at h
  | finished r last_error =>
    cases r with
    | none => simp at h
    | some rr =>
      by_cases hsuc : rr.success = true
      · simp [hsuc] at h
        exact ⟨rr, h.symm⟩
      · simp [hsuc] at h

/-! ### Claim C1 -/

/-- Claim C1: for every successfully crawled page, the Document returned by
`crawl_single_page` satisfies `content_snippet == full_content[0:1500]`
(equal to all of `full_content` when it is shorter than 1500 characters)
and `content_length == len(full_content)`. -/
theorem c1_snippet_invariant (fetch : Nat → FetchResult) (url : String)
    (nav_text : Option String) (max_retries : Nat) (d : Document)
    (h : crawl_single_page fetch url nav_text max_retries = .document d) :
    d.content_snippet = pySlice d.full_content 1500 ∧
    d.content_length = pyLen d.full_content ∧
    (pyLen d.full_content < 1500 → d.content_snippet = d.full_content) := by
  obtain ⟨rr, rfl⟩ := crawl_single_page_document fetch url nav_text max_retries d h
  obtain ⟨t, c, hbc⟩ := buildDocument_core rr url nav_text
  rw [hbc]
  exact mkDocument_inv t url nav_text c

/-- Witness for C1 at a concrete successful crawl. -/
theorem c1_snippet_invariant_witness :
    (buildDocument (c1Fetch 0) "http://m/p.html" (some "T")).content_snippet =
      pySlice (buildDocument (c1Fetch 0) "http://m/p.html" (some "T")).full_content 1500 ∧
    (buildDocument (c1Fetch 0) "http://m/p.html" (some "T")).content_length =
      pyLen (buildDocument (c1Fetch 0) "http://m/p.html" (some "T")).full_content ∧
    (pyLen (buildDocument (c1Fetch 0) "http://m/p.html" (some "T")).full_content < 1500 →
      (buildDocument (c1Fetch 0) "http://m/p.html" (some "T")).content_snippet =
        (buildDocument (c1Fetch 0) "http://m/p.html" (some "T")).full_content) :=
  c1_snippet_invariant c1Fetch "http://m/p.html" (some "T") 2
    (buildDocument (c1Fetch 0) "http://m/p.html" (some "T")) rfl

/-! ### Claim C2 -/

/-- Counterexample to C2 as stated: with a fetch stub that is
security-blocked on every attempt, `crawl_single_page` with `maxRetries=2`
does make 3 attempts and reports the last failure reason, but the failure
value it returns is identical to the one produced after a single attempt
with `maxRetries=0` — so no function of the returned result can read off
the attempt count, i.e. the result does not carry `attemptsMade`. -/
theorem c2_attempt_count_counterexample :
    crawl_single_page c2Fetch "u" none 2 = .failure "u" securityBlockMsg ∧
    crawl_single_attempts c2Fetch "u" none 2 = 3 ∧
    crawl_single_page c2Fetch "u" none 0 = crawl_single_page c2Fetch "u" none 2 ∧
    crawl_single_attempts c2Fetch "u" none 0 = 1 ∧
    ¬∃ f : CrawlOutcome → Nat,
      ∀ mr, f (crawl_single_page c2Fetch "u" none mr) =
        crawl_single_attempts c2Fetch "u" none mr := by
  refine ⟨rfl, rfl, rfl, rfl, ?_⟩
  rintro ⟨f, hf⟩
  have e : (3 : Nat) = 1 := by
    calc (3 : Nat) = crawl_single_attempts c2Fetch "u" none 2 := rfl
    _ = f (crawl_single_page c2Fetch "u" none 2) := (hf 2).symm
    _ = f (crawl_single_page c2Fetch "u" none 0) := rfl
    _ = crawl_single_attempts c2Fetch "u" none 0 := hf 0
    _ = 1 := rfl
  exact absurd e (by decide)

/-- Amended C2: if every fetch attempt returns a security-block outcome and
`maxRetries=2`, `crawl_single_page` makes exactly 3 fetch attempts and
returns a failure result carrying the URL and the last concrete failure
reason (`Security block (WAF/CDN)`); the attempt count is not part of the
returned result. -/
theorem c2_retry_exhaustion_amended (fetch : Nat → FetchResult) (url : String)
    (nav_text : Option String)
    (hs : ∀ n, (fetch n).success = true)
    (hb : ∀ n, isSecurityBlocked (fetch n).markdown = true) :
    crawl_single_attempts fetch url nav_text 2 = 3 ∧
    crawl_single_page fetch url nav_text 2 = .failure url securityBlockMsg := by
  have h : runAttempts fetch 2 3 0 none none = (3, .securityReturn securityBlockMsg) := by
    simp [runAttempts, hs 0, hs 1, hs 2, hb 0, hb 1, hb 2]
  constructor
  · simp [crawl_single_attempts, crawl_single_trace, h]
  · simp [crawl_single_page, crawl_single_trace, h]

/-- Witness for amended C2 at the concrete always-blocked fetch stub. -/
theorem c2_retry_exhaustion_witness :
    crawl_single_attempts c2Fetch "u" none 2 = 3 ∧
    crawl_single_page c2Fetch "u" none 2 = .failure "u" securityBlockMsg :=
  c2_retry_exhaustion_amended c2Fetch "u" none (fun _ => rfl) (fun _ => rfl)

/-! ### Claim C3 -/

/-- The `documents` list the per-link loop returns is exactly the
successful outcomes, in order. -/
theorem bundleLoop_returned (pageFetch : String → Nat → FetchResult) (ls : List NavLink) :
    (bundleLoop pageFetch ls).2 = (bundleLoop pageFetch ls).1.filterMap docOf := by
  induction ls with
  | nil => rfl
  | cons l rest ih =>
    simp only [bundleLoop, List.filterMap_cons, ih]
    cases crawl_single_page (pageFetch l.url) l.url (some l.nav_text) 2 <;> rfl

/-- The loop records one outcome per planned link. -/
theorem bundleLoop_length (pageFetch : String → Nat → FetchResult) (ls : List NavLink) :
    (bundleLoop pageFetch ls).1.length = ls.length := by
  induction ls with
  | nil => rfl
  | cons l rest ih => simp [bundleLoop, ih]

/-- Evaluation of the link extraction on the one-link TOC fixture. -/
theorem extract_c3Toc_eval : extract_navigation_links "/bundle/1/page/2.html" c3Toc =
    .ok [⟨"http://m/bundle/1/page/7.html", "A"⟩] := by
  have hHead : findElemWithFollowing isWhatsNewHeading c3Toc.html =
      some (.elem "h3" [] [.text "Whats New"],
        [.elem "ul" [] [.elem "li" []
          [.elem "a" [("href", "http://m/bundle/1/page/7.html")] [.text "A"]]]]) := by
    simp [findElemWithFollowing, c3Toc, whatsNewH3_eval]
  have hAnch : anchorsOf (.elem "ul" [] [.elem "li" []
      [.elem "a" [("href", "http://m/bundle/1/page/7.html")] [.text "A"]]]) =
      [.elem "a" [("href", "http://m/bundle/1/page/7.html")] [.text "A"]] := by
    simp [anchorsOf, descendantsOf, forestDesc, isAnchorWithHref, lookupAttr]
  calc extract_navigation_links "/bundle/1/page/2.html" c3Toc
      = extractWithHeading "1" c3Toc.html
          (findElemWithFollowing isWhatsNewHeading c3Toc.html) :=
        extract_eq "/bundle/1/page/2.html" c3Toc "1" rfl rfl
    _ = extractWithHeading "1" c3Toc.html
          (some (.elem "h3" [] [.text "Whats New"],
            [.elem "ul" [] [.elem "li" []
              [.elem "a" [("href", "http://m/bundle/1/page/7.html")] [.text "A"]]]])) := by
        rw [hHead]
    _ = .ok [⟨"http://m/bundle/1/page/7.html", "A"⟩] := by
        simp [extractWithHeading, regionOf, isElem, walkRegion, hAnch, addLinks, hrefOf,
          lookupAttr, getTextStrip, strippedStrings, nodeStrings, forestStrings, pyStrip,
          trimChars, pyJoin, isBundlePageLink, strContains, hasInfixAux, prefixAt, toAbsolute]

/-- Counterexample to C3 as stated: a session whose single page crawl
fails produces one per-page failure outcome, but the list the function
returns is empty — the failure is not part of the returned sequence. -/
theorem c3_failure_omitted_counterexample :
    crawl_documentation_bundle "/bundle/1/page/2.html" c3Toc pageNetFail none =
      .ok { attempted := [⟨"http://m/bundle/1/page/7.html", "A"⟩]
            results := [.failure "http://m/bundle/1/page/7.html" "net down"]
            returned := [] } :=
  calc crawl_documentation_bundle "/bundle/1/page/2.html" c3Toc pageNetFail none
      = processNav pageNetFail none (.ok [⟨"http://m/bundle/1/page/7.html", "A"⟩]) :=
        congrArg (processNav pageNetFail none) extract_c3Toc_eval
    _ = .ok { attempted := [⟨"http://m/bundle/1/page/7.html", "A"⟩]
              results := [.failure "http://m/bundle/1/page/7.html" "net down"]
              returned := [] } := rfl

/-- Every successful session trace relates its fields as the loop does:
one outcome per attempted link, and the returned list is the successful
outcomes only. -/
theorem processNav_ok (pageFetch : String → Nat → FetchResult) (max_pages : Option Nat)
    (nav : Except PyError (List NavLink)) (tr : BundleTrace)
    (h : processNav pageFetch max_pages nav = .ok tr) :
    tr.returned = tr.results.filterMap docOf ∧
    tr.results.length = tr.attempted.length := by
  cases nav with
  | error e => exact absurd h (by simp [processNav])
  | ok ls =>
    by_cases hE : ls.isEmpty = true
    · have h2 : (⟨[], [], []⟩ : BundleTrace) = tr := by
        have h' := h
        simp only [processNav, hE, if_true] at h'
        exact Except.ok.inj h'
      subst h2
      exact ⟨rfl, rfl⟩
    · have h2 : (⟨(if pyTruthyNat max_pages then ls.take (max_pages.getD 0) else ls),
          (bundleLoop pageFetch
            (if pyTruthyNat max_pages then ls.take (max_pages.getD 0) else ls)).1,
          (bundleLoop pageFetch
            (if pyTruthyNat max_pages then ls.take (max_pages.getD 0) else ls)).2⟩ :
            BundleTrace) = tr := by
        have h' := h
        simp only [processNav] at h'
        rw [if_neg hE] at h'
        exact Except.ok.inj h'
      subst h2
      exact ⟨bundleLoop_returned _ _, bundleLoop_length _ _⟩

/-- Amended C3: the value `crawl_documentation_bundle` returns is only the
successful Documents, in discovery order — exactly the per-page outcomes
with the failures filtered out; failed pages leave no trace in the
returned list (they are only logged), although one outcome exists per
attempted link. -/
theorem c3_returned_only_successes (toc_url : String) (tocFetch : FetchResult)
    (pageFetch : String → Nat → FetchResult) (max_pages : Option Nat) (tr : BundleTrace)
    (h : crawl_documentation_bundle toc_url tocFetch pageFetch max_pages = .ok tr) :
    tr.returned = tr.results.filterMap docOf ∧
    tr.results.length = tr.attempted.length :=
  processNav_ok pageFetch max_pages (extract_navigation_links toc_url tocFetch) tr h

/-- Witness for amended C3 at the concrete failing-page session. -/
theorem c3_returned_only_successes_witness :
    ({ attempted := [⟨"http://m/bundle/1/page/7.html", "A"⟩]
       results := [.failure "http://m/bundle/1/page/7.html" "net down"]
       returned := [] } : BundleTrace).returned =
      ([.failure "http://m/bundle/1/page/7.html" "net down"] : List CrawlOutcome).filterMap docOf ∧
    ([.failure "http://m/bundle/1/page/7.html" "net down"] : List CrawlOutcome).length =
      ([⟨"http://m/bundle/1/page/7.html", "A"⟩] : List NavLink).length := by
  have hb : crawl_documentation_bundle "/bundle/1/page/2.html" c3Toc pageNetFail none =
      .ok { attempted := [⟨"http://m/bundle/1/page/7.html", "A"⟩]
            results := [.failure "http://m/bundle/1/page/7.html" "net down"]
            returned := [] } :=
    calc crawl_documentation_bundle "/bundle/1/page/2.html" c3Toc pageNetFail none
        = processNav pageNetFail none (.ok [⟨"http://m/bundle/1/page/7.html", "A"⟩]) :=
          congrArg (processNav pageNetFail none) extract_c3Toc_eval
      _ = _ := rfl
  exact c3_returned_only_successes "/bundle/1/page/2.html" c3Toc pageNetFail none _ hb

/-! ### Claim C4 -/

/-- Claim C4 names a code bug: on a TOC document with no heading matching
the target phrase but with a qualifying list-item link, the fallback scan
reads the dedup variable `seen_urls`, which is only ever assigned inside
the branch taken when a heading was found, so the extraction raises
UnboundLocalError instead of returning the qualifying links. -/
theorem c4_fallback_nameerror :
    extract_navigation_links "/bundle/1/page/2.html" c4Toc =
      .error (.nameError "seen_urls") := by
  have hHead : findElemWithFollowing isWhatsNewHeading c4Toc.html = none := by
    simp [findElemWithFollowing, c4Toc, isWhatsNewHeading, isHeadingTag]
  have hLis : findAllLis c4Toc.html =
      [HNode.elem "li" [] [.elem "a" [("href", "/bundle/1/page/9.html")] [.text "Page One"]]] := by
    simp [findAllLis, c4Toc, forestDesc, tagOf]
  have hq : isBundlePageLink "1" "/bundle/1/page/9.html" = true := by decide
  have hFall : fallbackScan "1"
      [HNode.elem "li" [] [.elem "a" [("href", "/bundle/1/page/9.html")] [.text "Page One"]]]
      none [] = .error (.nameError "seen_urls") := by
    simp [fallbackScan, anchorsOf, descendantsOf, forestDesc, isAnchorWithHref, lookupAttr,
      hrefOf, hq]
  calc extract_navigation_links "/bundle/1/page/2.html" c4Toc
      = extractWithHeading "1" c4Toc.html
          (findElemWithFollowing isWhatsNewHeading c4Toc.html) :=
        extract_eq "/bundle/1/page/2.html" c4Toc "1" rfl rfl
    _ = extractWithHeading "1" c4Toc.html none := by rw [hHead]
    _ = .error (.nameError "seen_urls") :=
        extractWithHeading_none_error "1" c4Toc.html (.nameError "seen_urls")
          (by rw [hLis]; exact hFall)

/-! ### Claim C5 -/

/-- Counterexample to C5 as stated: a TOC URL with no parsable bundle id
makes extraction return a plain empty list — the very value a normal
no-links extraction returns — rather than any distinguishable
StructureError. -/
theorem c5_no_structure_error_counterexample :
    extract_navigation_links "/page/2.html" c3Toc = .ok [] ∧
    extract_navigation_links "/bundle/1/page/2.html" emptyOkFetch = .ok [] ∧
    extract_navigation_links "/page/2.html" c3Toc =
      extract_navigation_links "/bundle/1/page/2.html" emptyOkFetch := by
  have h1 : extract_navigation_links "/page/2.html" c3Toc = .ok [] := rfl
  have h2 : extract_navigation_links "/bundle/1/page/2.html" emptyOkFetch = .ok [] := by
    simp [extract_navigation_links, extractWithHeading, emptyOkFetch, parseBundleId,
      searchBundleId, bundleIdAt, prefixAt, findElemWithFollowing, fallbackScan,
      findAllLis, forestDesc]
  exact ⟨h1, h2, h1.trans h2.symm⟩

/-- Amended C5: when no bundle identifier can be parsed from the TOC URL,
extraction returns an empty link list (after logging), indistinguishable
from a normal empty discovery; no StructureError value exists. -/
theorem c5_bad_bundle_returns_empty (toc_url : String) (result : FetchResult)
    (hp : parseBundleId toc_url = none) (hs : result.success = true) :
    extract_navigation_links toc_url result = .ok [] := by
  unfold extract_navigation_links
  rw [hp, hs]
  rfl

/-- Witness for amended C5 at a concrete bundle-less URL. -/
theorem c5_bad_bundle_witness :
    extract_navigation_links "/page/2.html" c3Toc = .ok [] :=
  c5_bad_bundle_returns_empty "/page/2.html" c3Toc (by decide) rfl

/-! ### Claim C6 -/

/-- Counterexample to C6 as stated: with a failing TOC fetch the session
returns the ordinary empty trace, the same value as a successful session
that discovered no links — no fatal TocFetchError value exists. -/
theorem c6_no_tocfetcherror_counterexample :
    crawl_documentation_bundle "/bundle/1/page/2.html" failFetch pageNetFail none =
      .ok { attempted := [], results := [], returned := [] } ∧
    crawl_documentation_bundle "/bundle/1/page/2.html" failFetch pageNetFail none =
      crawl_documentation_bundle "/bundle/1/page/2.html" emptyOkFetch pageNetFail none := by
  have h1 : crawl_documentation_bundle "/bundle/1/page/2.html" failFetch pageNetFail none =
      .ok { attempted := [], results := [], returned := [] } :=
    calc crawl_documentation_bundle "/bundle/1/page/2.html" failFetch pageNetFail none
        = processNav pageNetFail none (.ok []) :=
          congrArg (processNav pageNetFail none)
            (show extract_navigation_links "/bundle/1/page/2.html" failFetch = .ok [] from rfl)
      _ = .ok { attempted := [], results := [], returned := [] } := rfl
  have h2 : crawl_documentation_bundle "/bundle/1/page/2.html" emptyOkFetch pageNetFail none =
      .ok { attempted := [], results := [], returned := [] } := by
    have hx : extract_navigation_links "/bundle/1/page/2.html" emptyOkFetch = .ok [] := by
      simp [extract_navigation_links, extractWithHeading, emptyOkFetch, parseBundleId,
        searchBundleId, bundleIdAt, prefixAt, findElemWithFollowing, fallbackScan,
        findAllLis, forestDesc]
    calc crawl_documentation_bundle "/bundle/1/page/2.html" emptyOkFetch pageNetFail none
        = processNav pageNetFail none (.ok []) := congrArg (processNav pageNetFail none) hx
      _ = .ok { attempted := [], results := [], returned := [] } := rfl
  exact ⟨h1, h1.trans h2.symm⟩

/-- Amended C6: when the TOC fetch itself fails, zero per-page crawls are
attempted and the empty document list is returned; the session result is
the ordinary empty trace, with no distinguishable TocFetchError. -/
theorem c6_toc_failure_amended (toc_url : String) (tocFetch : FetchResult)
    (pageFetch : String → Nat → FetchResult) (max_pages : Option Nat)
    (h : tocFetch.success = false) :
    crawl_documentation_bundle toc_url tocFetch pageFetch max_pages =
      .ok { attempted := [], results := [], returned := [] } := by
  have hx : extract_navigation_links toc_url tocFetch = .ok [] := by
    unfold extract_navigation_links
    rw [h]
    rfl
  calc crawl_documentation_bundle toc_url tocFetch pageFetch max_pages
      = processNav pageFetch max_pages (.ok []) := congrArg (processNav pageFetch max_pages) hx
    _ = .ok { attempted := [], results := [], returned := [] } := by simp [processNav]

/-- Witness for amended C6 at the concrete failing TOC fetch. -/
theorem c6_toc_failure_witness :
    crawl_documentation_bundle "/bundle/1/page/2.html" failFetch pageNetFail none =
      .ok { attempted := [], results := [], returned := [] } :=
  c6_toc_failure_amended "/bundle/1/page/2.html" failFetch pageNetFail none rfl

/-! ### Claim C7 -/

/-- The inner link loop is first-occurrence URL deduplication of the
qualifying-link stream restricted to nonempty texts, threaded through the
`seen` set and accumulator. -/
theorem addLinks_eq (bundle_id : String) :
    ∀ (as : List HNode) (seen : List String) (acc : List NavLink),
    addLinks bundle_id as seen acc =
      (((dedupFirstBy seen ((qualStream bundle_id as).filter
          (fun l => l.nav_text ≠ ""))).map NavLink.url).reverse ++ seen,
       acc ++ dedupFirstBy seen ((qualStream bundle_id as).filter
          (fun l => l.nav_text ≠ ""))) := by
  intro as
  induction as with
  | nil => intro seen acc; simp [addLinks, qualStream, dedupFirstBy]
  | cons a rest ih =>
    intro seen acc
    by_cases hq : isBundlePageLink bundle_id (hrefOf a) = true
    · by_cases ht : getTextStrip a = ""
      · have hcond : ¬(toAbsolute (hrefOf a) ∉ seen ∧ getTextStrip a ≠ "") := by
          simp [ht]
        simp only [addLinks, if_pos hq, if_neg hcond]
        rw [ih seen acc]
        simp [qualStream, List.filterMap_cons, hq, List.filter_cons, ht]
      · by_cases hm : toAbsolute (hrefOf a) ∈ seen
        · have hcond : ¬(toAbsolute (hrefOf a) ∉ seen ∧ getTextStrip a ≠ "") := by
            simp [hm]
          simp only [addLinks, if_pos hq, if_neg hcond]
          rw [ih seen acc]
          simp only [qualStream, List.filterMap_cons, if_pos hq]
          rw [List.filter_cons_of_pos (by simpa using ht)]
          simp only [dedupFirstBy, if_pos hm]
        · have hcond : toAbsolute (hrefOf a) ∉ seen ∧ getTextStrip a ≠ "" := ⟨hm, ht⟩
          simp only [addLinks, if_pos hq, if_pos hcond]
          rw [ih]
          simp only [qualStream, List.filterMap_cons, if_pos hq]
          rw [List.filter_cons_of_pos (by simpa using ht)]
          simp only [dedupFirstBy, if_neg hm]
          simp [Prod.mk.injEq, List.append_assoc]
    · simp only [addLinks, if_neg hq]
      rw [ih seen acc]
      simp [qualStream, List.filterMap_cons, hq]

/-- Deduplicating a concatenation: the second part is deduplicated against
the seen set extended with the first part's emitted URLs. -/
theorem dedupFirstBy_append (s t : List NavLink) :
    ∀ seen, dedupFirstBy seen (s ++ t) =
      dedupFirstBy seen s ++
        dedupFirstBy (((dedupFirstBy seen s).map NavLink.url).reverse ++ seen) t := by
  induction s with
  | nil => intro seen; simp [dedupFirstBy]
  | cons l s ih =>
    intro seen
    by_cases hm : l.url ∈ seen
    · simp only [List.cons_append, dedupFirstBy, if_pos hm]
      exact ih seen
    · simp only [List.cons_append, dedupFirstBy, if_neg hm]
      simp only [List.append_eq]
      rw [ih (l.url :: seen)]
      simp [List.reverse_cons, List.append_assoc]

/-- The deduplicated list has pairwise-distinct URLs, none of them in the
initial seen set. -/
theorem dedupFirstBy_nodup :
    ∀ (s : List NavLink) (seen : List String),
    ((dedupFirstBy seen s).map NavLink.url).Nodup ∧
    ∀ u ∈ (dedupFirstBy seen s).map NavLink.url, u ∉ seen := by
  intro s
  induction s with
  | nil => intro seen; simp [dedupFirstBy]
  | cons l s ih =>
    intro seen
    by_cases hm : l.url ∈ seen
    · simpa [dedupFirstBy, hm] using ih seen
    · obtain ⟨h1, h2⟩ := ih (l.url :: seen)
      constructor
      · simp only [dedupFirstBy, if_neg hm, List.map_cons, List.nodup_cons]
        exact ⟨fun hmem => (h2 _ hmem) (List.mem_cons_self _ _), h1⟩
      · intro u hu
        simp only [dedupFirstBy, if_neg hm, List.map_cons, List.mem_cons] at hu
        rcases hu with rfl | hu
        · exact hm
        · intro hs
          exact (h2 u hu) (List.mem_cons_of_mem _ hs)

/-- The region walk is first-occurrence URL deduplication of the scanned
region's qualifying-link stream (restricted to nonempty texts). -/
theorem walkRegion_eq (bundle_id : String) (whats_new : HNode) :
    ∀ (region : List HNode) (seen : List String) (acc : List NavLink),
    walkRegion bundle_id whats_new region seen acc =
      (((dedupFirstBy seen ((regionScan bundle_id whats_new region).filter
          (fun l => l.nav_text ≠ ""))).map NavLink.url).reverse ++ seen,
       acc ++ dedupFirstBy seen ((regionScan bundle_id whats_new region).filter
          (fun l => l.nav_text ≠ ""))) := by
  intro region
  induction region with
  | nil => intro seen acc; simp [walkRegion, regionScan, dedupFirstBy]
  | cons n rest ih =>
    intro seen acc
    cases n with
    | text s => simpa [walkRegion, regionScan] using ih seen acc
    | elem t a cs =>
      by_cases hstop :
          ((t = "h1" || t = "h2" || t = "h3") && !nodeBEq (.elem t a cs) whats_new) = true
      · simp [walkRegion, regionScan, hstop, dedupFirstBy]
      · simp only [walkRegion, regionScan, hstop, Bool.false_eq_true, if_false]
        rw [addLinks_eq bundle_id (anchorsOf (.elem t a cs)) seen acc]
        rw [ih]
        rw [qualLinksOfElem, List.filter_append, dedupFirstBy_append]
        simp [Prod.mk.injEq, List.reverse_append, List.append_assoc]

/-- Counterexample to C7 as stated: in a Whats New region holding the same
page URL with and without a trailing slash (plus an exact duplicate), the
extraction emits two NavigationLinks whose spec identity keys (normalized,
trailing-slash-insensitive URLs) coincide, so a discovery result can
contain two links with the same identity key. -/
theorem c7_identity_key_counterexample :
    extract_navigation_links "/bundle/1/page/2.html" c7Toc =
      .ok [⟨"http://m/bundle/1/page/7.html", "A"⟩, ⟨"http://m/bundle/1/page/7.html/", "B"⟩] ∧
    specIdentityKey "http://m/bundle/1/page/7.html" =
      specIdentityKey "http://m/bundle/1/page/7.html/" ∧
    ("http://m/bundle/1/page/7.html" : String) ≠ "http://m/bundle/1/page/7.html/" := by
  refine ⟨?_, by decide, by decide⟩
  have hHead : findElemWithFollowing isWhatsNewHeading c7Toc.html =
      some (.elem "h3" [] [.text "Whats New"],
        [.elem "div" []
           [.elem "a" [("href", "http://m/bundle/1/page/7.html")] [.text "A"],
            .elem "a" [("href", "http://m/bundle/1/page/7.html/")] [.text "B"],
            .elem "a" [("href", "http://m/bundle/1/page/7.html")] [.text "C"]],
         .elem "h2" [] [.text "Stop"],
         .elem "div" []
           [.elem "a" [("href", "http://m/bundle/1/page/8.html")] [.text "D"]]]) := by
    simp [findElemWithFollowing, c7Toc, whatsNewH3_eval]
  have hq1 : isBundlePageLink "1" "http://m/bundle/1/page/7.html" = true := by decide
  have hq2 : isBundlePageLink "1" "http://m/bundle/1/page/7.html/" = true := by decide
  have habs1 : toAbsolute "http://m/bundle/1/page/7.html" = "http://m/bundle/1/page/7.html" := by
    decide
  have habs2 : toAbsolute "http://m/bundle/1/page/7.html/" =
      "http://m/bundle/1/page/7.html/" := by decide
  have hAnch : anchorsOf (.elem "div" []
      [.elem "a" [("href", "http://m/bundle/1/page/7.html")] [.text "A"],
       .elem "a" [("href", "http://m/bundle/1/page/7.html/")] [.text "B"],
       .elem "a" [("href", "http://m/bundle/1/page/7.html")] [.text "C"]]) =
      [.elem "a" [("href", "http://m/bundle/1/page/7.html")] [.text "A"],
       .elem "a" [("href", "http://m/bundle/1/page/7.html/")] [.text "B"],
       .elem "a" [("href", "http://m/bundle/1/page/7.html")] [.text "C"]] := by
    simp [anchorsOf, descendantsOf, forestDesc, isAnchorWithHref, lookupAttr]
  calc extract_navigation_links "/bundle/1/page/2.html" c7Toc
      = extractWithHeading "1" c7Toc.html
          (findElemWithFollowing isWhatsNewHeading c7Toc.html) :=
        extract_eq "/bundle/1/page/2.html" c7Toc "1" rfl rfl
    _ = extractWithHeading "1" c7Toc.html
          (some (.elem "h3" [] [.text "Whats New"],
            [.elem "div" []
               [.elem "a" [("href", "http://m/bundle/1/page/7.html")] [.text "A"],
                .elem "a" [("href", "http://m/bundle/1/page/7.html/")] [.text "B"],
                .elem "a" [("href", "http://m/bundle/1/page/7.html")] [.text "C"]],
             .elem "h2" [] [.text "Stop"],
             .elem "div" []
               [.elem "a" [("href", "http://m/bundle/1/page/8.html")] [.text "D"]]])) := by
        rw [hHead]
    _ = .ok [⟨"http://m/bundle/1/page/7.html", "A"⟩,
             ⟨"http://m/bundle/1/page/7.html/", "B"⟩] := by
        simp [extractWithHeading, regionOf, isElem, walkRegion, hAnch, addLinks, hrefOf,
          lookupAttr, hq1, hq2, habs1, habs2, nodeBEq, getTextStrip, strippedStrings,
          nodeStrings, forestStrings, pyStrip, trimChars, pyJoin]

/-- Amended C7: the identity key the extraction actually deduplicates by is
the exact absolutized URL string (trailing-slash-sensitive).  With that
key, the region walk emits exactly the first-occurrence deduplication of
the scanned region's qualifying-link stream: no two emitted links share a
URL, at most one link per URL carrying the first-seen text, in first-seen
document order. -/
theorem c7_dedup_amended (bundle_id : String) (whats_new : HNode) (region : List HNode) :
    (walkRegion bundle_id whats_new region [] []).2 =
      dedupFirstBy [] ((regionScan bundle_id whats_new region).filter
        (fun l => l.nav_text ≠ "")) ∧
    ((walkRegion bundle_id whats_new region [] []).2.map NavLink.url).Nodup := by
  rw [walkRegion_eq bundle_id whats_new region [] []]
  exact ⟨by simp, by simpa using (dedupFirstBy_nodup _ []).1⟩


/-! ### Claim C8 -/

/-- A search that fails on a prefix forest continues into the rest. -/
theorem findElemWithFollowing_append (p : HNode → Bool) :
    ∀ (l1 l2 : List HNode), findElemWithFollowing p l1 = none →
    findElemWithFollowing p (l1 ++ l2) = findElemWithFollowing p l2 := by
  intro l1
  induction l1 with
  | nil => intro l2 _; rfl
  | cons n rest ih =>
    intro l2 h
    cases n with
    | text s =>
      simp only [findElemWithFollowing] at h
      simp only [List.cons_append, findElemWithFollowing]
      exact ih l2 h
    | elem t a cs =>
      simp only [findElemWithFollowing, List.cons_append] at h ⊢
      by_cases hp : p (.elem t a cs) = true
      · rw [if_pos hp] at h
        exact absurd h (by simp)
      · rw [if_neg hp] at h ⊢
        rcases hcs : findElemWithFollowing p cs with _ | r
        · rw [hcs] at h
          exact ih l2 h
        · rw [hcs] at h
          exact absurd h (by simp)

/-- Claim C8: for a page whose URL fragment names an element followed by
two paragraphs and then an `<h2>`, anchor-scoped selection returns exactly
the element's own stripped text joined with the two paragraphs' texts,
excluding everything at and after the `<h2>` (arbitrary prefix before the
element, with no earlier match of the id, and arbitrary content after the
`<h2>` are ignored; the sibling walk stops at the first h1-h4 heading). -/
theorem c8_anchor_scoping (pre post scs c1 c2 hcs : List HNode)
    (sa a1 a2 ha : List (String × String)) (stag anchor : String)
    (hpre : findElemWithFollowing (hasIdAttr anchor) pre = none)
    (hid : lookupAttr sa "id" = some anchor)
    (ht1 : getTextStrip (.elem "p" a1 c1) ≠ "")
    (ht2 : getTextStrip (.elem "p" a2 c2) ≠ "") :
    selectAnchorContent
        (pre ++ HNode.elem stag sa scs :: HNode.elem "p" a1 c1 ::
          HNode.elem "p" a2 c2 :: HNode.elem "h2" ha hcs :: post) anchor =
      some (getTextStrip (.elem stag sa scs) ++ " " ++
        (getTextStrip (.elem "p" a1 c1) ++ " " ++ getTextStrip (.elem "p" a2 c2))) := by
  unfold selectAnchorContent
  rw [findElemWithFollowing_append (hasIdAttr anchor) pre _ hpre]
  have hsec : hasIdAttr anchor (.elem stag sa scs) = true := by
    simp [hasIdAttr, hid]
  simp only [findElemWithFollowing, if_pos hsec]
  simp [sectionWalk, isHeadingTag, ht1, ht2, pyJoin]

/-- Witness for C8 at a concrete anchored page fragment. -/
theorem c8_anchor_scoping_witness :
    selectAnchorContent
        ([HNode.text "lead"] ++ HNode.elem "div" [("id", "sec1")] [.text "Intro"] ::
          HNode.elem "p" [] [.text "Para one"] :: HNode.elem "p" [] [.text "Para two"] ::
          HNode.elem "h2" [] [.text "Next"] :: [HNode.text "After"]) "sec1" =
      some (getTextStrip (.elem "div" [("id", "sec1")] [.text "Intro"]) ++ " " ++
        (getTextStrip (.elem "p" [] [.text "Para one"]) ++ " " ++
          getTextStrip (.elem "p" [] [.text "Para two"]))) :=
  c8_anchor_scoping [HNode.text "lead"] [HNode.text "After"] [.text "Intro"]
    [.text "Para one"] [.text "Para two"] [.text "Next"] [("id", "sec1")] [] [] []
    "div" "sec1" (by simp [findElemWithFollowing, hasIdAttr])
    rfl
    (by simp [getTextStrip, strippedStrings, nodeStrings, forestStrings, pyStrip, trimChars,
      pyJoin])
    (by simp [getTextStrip, strippedStrings, nodeStrings, forestStrings, pyStrip, trimChars,
      pyJoin])


/-! ### Claims C9 and C10 -/

/-- Evaluation of the link extraction on the four-link TOC fixture. -/
theorem extract_c9Toc_eval : extract_navigation_links "/bundle/1/page/2.html" c9Toc =
    .ok [⟨"http://m/bundle/1/page/3.html", "A"⟩, ⟨"http://m/bundle/1/page/4.html", "B"⟩,
         ⟨"http://m/bundle/1/page/5.html", "C"⟩, ⟨"http://m/bundle/1/page/6.html", "D"⟩] := by
  have hHead : findElemWithFollowing isWhatsNewHeading c9Toc.html =
      some (.elem "h3" [] [.text "Whats New"],
        [.elem "div" []
           [.elem "a" [("href", "http://m/bundle/1/page/3.html")] [.text "A"],
            .elem "a" [("href", "http://m/bundle/1/page/4.html")] [.text "B"],
            .elem "a" [("href", "http://m/bundle/1/page/5.html")] [.text "C"],
            .elem "a" [("href", "http://m/bundle/1/page/6.html")] [.text "D"]]]) := by
    simp [findElemWithFollowing, c9Toc, whatsNewH3_eval]
  have hq3 : isBundlePageLink "1" "http://m/bundle/1/page/3.html" = true := by decide
  have hq4 : isBundlePageLink "1" "http://m/bundle/1/page/4.html" = true := by decide
  have hq5 : isBundlePageLink "1" "http://m/bundle/1/page/5.html" = true := by decide
  have hq6 : isBundlePageLink "1" "http://m/bundle/1/page/6.html" = true := by decide
  have hb3 : toAbsolute "http://m/bundle/1/page/3.html" = "http://m/bundle/1/page/3.html" := by
    decide
  have hb4 : toAbsolute "http://m/bundle/1/page/4.html" = "http://m/bundle/1/page/4.html" := by
    decide
  have hb5 : toAbsolute "http://m/bundle/1/page/5.html" = "http://m/bundle/1/page/5.html" := by
    decide
  have hb6 : toAbsolute "http://m/bundle/1/page/6.html" = "http://m/bundle/1/page/6.html" := by
    decide
  have hAnch : anchorsOf (.elem "div" []
      [.elem "a" [("href", "http://m/bundle/1/page/3.html")] [.text "A"],
       .elem "a" [("href", "http://m/bundle/1/page/4.html")] [.text "B"],
       .elem "a" [("href", "http://m/bundle/1/page/5.html")] [.text "C"],
       .elem "a" [("href", "http://m/bundle/1/page/6.html")] [.text "D"]]) =
      [.elem "a" [("href", "http://m/bundle/1/page/3.html")] [.text "A"],
       .elem "a" [("href", "http://m/bundle/1/page/4.html")] [.text "B"],
       .elem "a" [("href", "http://m/bundle/1/page/5.html")] [.text "C"],
       .elem "a" [("href", "http://m/bundle/1/page/6.html")] [.text "D"]] := by
    simp [anchorsOf, descendantsOf, forestDesc, isAnchorWithHref, lookupAttr]
  calc extract_navigation_links "/bundle/1/page/2.html" c9Toc
      = extractWithHeading "1" c9Toc.html
          (findElemWithFollowing isWhatsNewHeading c9Toc.html) :=
        extract_eq "/bundle/1/page/2.html" c9Toc "1" rfl rfl
    _ = extractWithHeading "1" c9Toc.html
          (some (.elem "h3" [] [.text "Whats New"],
            [.elem "div" []
               [.elem "a" [("href", "http://m/bundle/1/page/3.html")] [.text "A"],
                .elem "a" [("href", "http://m/bundle/1/page/4.html")] [.text "B"],
                .elem "a" [("href", "http://m/bundle/1/page/5.html")] [.text "C"],
                .elem "a" [("href", "http://m/bundle/1/page/6.html")] [.text "D"]]])) := by
        rw [hHead]
    _ = .ok [⟨"http://m/bundle/1/page/3.html", "A"⟩, ⟨"http://m/bundle/1/page/4.html", "B"⟩,
             ⟨"http://m/bundle/1/page/5.html", "C"⟩, ⟨"http://m/bundle/1/page/6.html", "D"⟩] := by
        simp [extractWithHeading, regionOf, isElem, walkRegion, hAnch, addLinks, hrefOf,
          lookupAttr, hq3, hq4, hq5, hq6, hb3, hb4, hb5, hb6, getTextStrip, strippedStrings,
          nodeStrings, forestStrings, pyStrip, trimChars, pyJoin]

/-- Claim C9: for every discovery result and positive `maxPages`, the
session attempts a crawl for exactly the first `min(maxPages, discovered)`
links, truncating from the front in discovery order. -/
theorem c9_max_pages_truncation (toc_url : String) (tocFetch : FetchResult)
    (pageFetch : String → Nat → FetchResult) (m : Nat) (L : List NavLink)
    (hm : 0 < m) (hL : extract_navigation_links toc_url tocFetch = .ok L) :
    ∃ tr : BundleTrace,
      crawl_documentation_bundle toc_url tocFetch pageFetch (some m) = .ok tr ∧
      tr.attempted = L.take m := by
  have hb : crawl_documentation_bundle toc_url tocFetch pageFetch (some m) =
      processNav pageFetch (some m) (.ok L) := congrArg (processNav pageFetch (some m)) hL
  by_cases hE : L.isEmpty = true
  · refine ⟨⟨[], [], []⟩, ?_, ?_⟩
    · rw [hb]
      simp [processNav, hE]
    · have h0 : L = [] := List.isEmpty_iff.mp hE
      simp [h0]
  · refine ⟨⟨L.take m, (bundleLoop pageFetch (L.take m)).1,
      (bundleLoop pageFetch (L.take m)).2⟩, ?_, rfl⟩
    rw [hb]
    have hT : pyTruthyNat (some m) = true := by
      simp only [pyTruthyNat, decide_eq_true_eq]
      omega
    simp [processNav, hE, hT]

/-- Witness for C9: four discovered links with `maxPages = 3` yield crawl
attempts for exactly the first three, in discovery order. -/
theorem c9_max_pages_truncation_witness :
    ∃ tr : BundleTrace,
      crawl_documentation_bundle "/bundle/1/page/2.html" c9Toc pageNetFail (some 3) = .ok tr ∧
      tr.attempted =
        ([⟨"http://m/bundle/1/page/3.html", "A"⟩, ⟨"http://m/bundle/1/page/4.html", "B"⟩,
          ⟨"http://m/bundle/1/page/5.html", "C"⟩,
          ⟨"http://m/bundle/1/page/6.html", "D"⟩] : List NavLink).take 3 :=
  c9_max_pages_truncation "/bundle/1/page/2.html" c9Toc pageNetFail 3 _ (by decide)
    extract_c9Toc_eval

/-- Claim C10: `max_pages = 0` is falsy for the truthiness test of line
293, so no truncation happens: the session attempts a crawl for every
discovered link (one per-page outcome each), not zero pages. -/
theorem c10_max_pages_zero (toc_url : String) (tocFetch : FetchResult)
    (pageFetch : String → Nat → FetchResult) (L : List NavLink)
    (hL : extract_navigation_links toc_url tocFetch = .ok L) :
    ∃ tr : BundleTrace,
      crawl_documentation_bundle toc_url tocFetch pageFetch (some 0) = .ok tr ∧
      tr.attempted = L ∧ tr.results.length = L.length := by
  have hb : crawl_documentation_bundle toc_url tocFetch pageFetch (some 0) =
      processNav pageFetch (some 0) (.ok L) := congrArg (processNav pageFetch (some 0)) hL
  by_cases hE : L.isEmpty = true
  · have h0 : L = [] := List.isEmpty_iff.mp hE
    subst h0
    refine ⟨⟨[], [], []⟩, ?_, rfl, rfl⟩
    rw [hb]
    simp [processNav]
  · refine ⟨⟨L, (bundleLoop pageFetch L).1, (bundleLoop pageFetch L).2⟩, ?_, rfl, ?_⟩
    · rw [hb]
      simp [processNav, hE, pyTruthyNat]
    · exact bundleLoop_length pageFetch L

/-- Witness for C10: with `max_pages = 0` all four discovered links are
attempted. -/
theorem c10_max_pages_zero_witness :
    ∃ tr : BundleTrace,
      crawl_documentation_bundle "/bundle/1/page/2.html" c9Toc pageNetFail (some 0) = .ok tr ∧
      tr.attempted =
        [⟨"http://m/bundle/1/page/3.html", "A"⟩, ⟨"http://m/bundle/1/page/4.html", "B"⟩,
         ⟨"http://m/bundle/1/page/5.html", "C"⟩, ⟨"http://m/bundle/1/page/6.html", "D"⟩] ∧
      tr.results.length =
        ([⟨"http://m/bundle/1/page/3.html", "A"⟩, ⟨"http://m/bundle/1/page/4.html", "B"⟩,
          ⟨"http://m/bundle/1/page/5.html", "C"⟩,
          ⟨"http://m/bundle/1/page/6.html", "D"⟩] : List NavLink).length :=
  c10_max_pages_zero "/bundle/1/page/2.html" c9Toc pageNetFail _ extract_c9Toc_eval


end Crawler
